import Mathlib

/-!
Verification of the KV-cache layer and sharding environment of
jetstream-pytorch (src/jetstream_pt/cache_manager.py and
src/jetstream_pt/environment.py).

Tensors are shallowly embedded as functions from index spaces to exact
rationals; machine float arithmetic is idealised as exact rational
arithmetic (division by zero is total and yields 0), and the
float-to-int8 cast is modelled as truncation toward zero, which is the
cast semantics of `.to(torch.int8)`.  Python exceptions are modelled by
`Except PyError`.
-/

/-! ## Definitions -/

/-- The Python exception classes that the modelled code can raise. -/
inductive PyError where
  | attributeError
  | indexError
  | valueError
  | runtimeError
  deriving DecidableEq, Repr

/-- A 4-D rational tensor of shape (B, H, S, D). -/
abbrev Tensor4 (B H S D : ℕ) := Fin B → Fin H → Fin S → Fin D → ℚ

/-- A 4-D integer tensor of shape (B, H, S, D); carries int8 payloads. -/
abbrev ITensor4 (B H S D : ℕ) := Fin B → Fin H → Fin S → Fin D → ℤ

/-- The all-zero tensor, as produced by `jnp.zeros(shape)`. -/
def zeroTensor4 (B H S D : ℕ) : Tensor4 B H S D := fun _ _ _ _ => 0

/-- Truncation of a rational toward zero: the semantics of the C-style
float-to-integer cast performed by `.to(torch.int8)`.  `Int.tdiv`
rounds toward zero and the denominator is positive. -/
def ratTruncToInt (q : ℚ) : ℤ := q.num.tdiv q.den

/-- Floor of a rational as an integer, computably (`Int./` is Euclidean
division, which agrees with the mathematical floor). -/
def ratFloorZ (q : ℚ) : ℤ := q.num / q.den

/-- Round-half-up on rationals, computably. -/
def roundRat (q : ℚ) : ℤ := ratFloorZ (q + 1 / 2)

/-- The reduction `torch.amax(val.abs(), axis=(1, 3), keepdim=True)` at
batch index `b`, sequence index `s`: the maximum of the absolute values
over the heads and head_dim axes.  (Folding `max` from 0 agrees with the
true maximum because absolute values are nonnegative.) -/
def Int8KVCacheGenerate.absAmax13 {B H S D : ℕ} (val : Tensor4 B H S D)
    (b : Fin B) (s : Fin S) : ℚ :=
  ((List.finRange H).map (fun h =>
    ((List.finRange D).map (fun d => |val b h s d|)).foldl max 0)).foldl max 0

/-- The scale tensor computed by `Int8KVCacheGenerate.quantize`:
`scale = torch.amax(val.abs(), axis=(1,3), keepdim=True) / 127`,
of shape (B, 1, S, 1). -/
def Int8KVCacheGenerate.quantizeScale {B H S D : ℕ} (val : Tensor4 B H S D) :
    Tensor4 B 1 S 1 :=
  fun b _ s _ => Int8KVCacheGenerate.absAmax13 val b s / 127

/-- Model of `Int8KVCacheGenerate.quantize`: returns `(val / scale).to(torch.int8)`
together with `scale`.  The division broadcasts the (B,1,S,1) scale over
heads and head_dim; the int8 cast truncates toward zero. -/
def Int8KVCacheGenerate.quantize {B H S D : ℕ} (val : Tensor4 B H S D) :
    ITensor4 B H S D × Tensor4 B 1 S 1 :=
  (fun b h s d =>
     ratTruncToInt (val b h s d / Int8KVCacheGenerate.quantizeScale val b 0 s 0),
   Int8KVCacheGenerate.quantizeScale val)

/-- Refinement target written from the specification's words only (not
from the source): the quantizer the spec describes, with
`round(value / scale)` truncated to the int8 range [-128, 127].  Used
solely to compare the spec's wording with the source's `quantize`. -/
def quantizeRoundSpec {B H S D : ℕ} (val : Tensor4 B H S D) :
    ITensor4 B H S D × Tensor4 B 1 S 1 :=
  (fun b h s d =>
      max (-128) (min 127
        (roundRat (val b h s d / Int8KVCacheGenerate.quantizeScale val b 0 s 0))),
   Int8KVCacheGenerate.quantizeScale val)

/-- A concrete 1×1×1×2 tensor whose second entry quantizes to 63.5 before
the int8 cast: its scale is 2/127, so entry 1 maps to 1/(2/127) = 63.5. -/
def valHalfway : Tensor4 1 1 1 2 := fun _ _ _ d => if d.val = 0 then 2 else 1

/-- A concrete 1×1×1×1 tensor of ones. -/
def valOnes : Tensor4 1 1 1 1 := fun _ _ _ _ => 1

/-- The all-zero integer tensor, as produced by `jnp.zeros(shape, dtype=jnp.int8)`. -/
def zeroITensor4 (B H S D : ℕ) : ITensor4 B H S D := fun _ _ _ _ => 0

/-- An all-ones scale tensor of shape (B, 1, C, 1), as produced by
`jnp.ones((shape[0], 1, shape[2], 1), ...)`. -/
def onesScale4 (B C : ℕ) : Tensor4 B 1 C 1 := fun _ _ _ _ => 1

/-- Model of `KVCachePrefill`: remembers the most recent key/value tensors; both
start out as Python None (here `Option.none`). -/
structure KVCachePrefill (B H S D : ℕ) where
  kv_quantize : Bool
  cache_k : Option (Tensor4 B H S D)
  cache_v : Option (Tensor4 B H S D)

/-- The value returned by `KVCachePrefill.update`: a (key, value) pair, or
additionally two all-ones scale placeholders when `kv_quantize` is set. -/
inductive PrefillOut (B H S D : ℕ) where
  | plain (key value : Tensor4 B H S D)
  | quantized (key value : Tensor4 B H S D) (kscale vscale : Tensor4 B 1 S 1)

/-- Model of `KVCachePrefill.update`: stores `key`, `value` into the cache fields
(replacing any prior contents) and returns them, with all-ones scale
placeholders when quantization is pretended. -/
def KVCachePrefill.update {B H S D : ℕ} (c : KVCachePrefill B H S D)
    (key value : Tensor4 B H S D) :
    KVCachePrefill B H S D × PrefillOut B H S D :=
  ({ c with cache_k := some key, cache_v := some value },
   if c.kv_quantize then
     PrefillOut.quantized key value (onesScale4 B S) (onesScale4 B S)
   else
     PrefillOut.plain key value)

/-- Model of `KVCachePrefill.state`: returns the two remembered tensors. -/
def KVCachePrefill.state {B H S D : ℕ} (c : KVCachePrefill B H S D) :
    Option (Tensor4 B H S D) × Option (Tensor4 B H S D) :=
  (c.cache_k, c.cache_v)

/-- Model of `KVCachePrefill_flatten`: the pytree leaves (the two tensors) plus the
quantization flag as auxiliary data. -/
def KVCachePrefill_flatten {B H S D : ℕ} (c : KVCachePrefill B H S D) :
    (Option (Tensor4 B H S D) × Option (Tensor4 B H S D)) × Bool :=
  ((c.cache_k, c.cache_v), c.kv_quantize)

/-- Model of `KVCachePrefill_unflatten`: the Python function constructs a cache and
assigns its fields, but has no return statement, so it returns None. -/
def KVCachePrefill_unflatten {B H S D : ℕ} (auxdata : Bool)
    (data : Option (Tensor4 B H S D) × Option (Tensor4 B H S D)) :
    Option (KVCachePrefill B H S D) :=
  let _cache : KVCachePrefill B H S D :=
    { kv_quantize := auxdata, cache_k := data.1, cache_v := data.2 }
  none

/-- The `position` argument of the Generate-cache constructors: `empty`
passes the plain Python int 0, normal construction passes a per-row
integer index tensor of length B. -/
inductive PosArg (B : ℕ) where
  | scalar (n : ℤ)
  | tensor (pos : Fin B → ℤ)

/-- Model of `KVCacheGenerate` state after successful construction: the two
buffers, the per-row position tensor, and the sharding object. -/
structure KVCacheGenerate (B H C D : ℕ) (σ : Type) where
  cache_k : Tensor4 B H C D
  cache_v : Tensor4 B H C D
  pos : Fin B → ℤ
  sharding : σ

/-- Model of `KVCacheGenerate.__init__`: evaluates `torch.arange(position.shape[0])`,
which raises AttributeError when `position` is a plain int (ints have no
`.shape`); with a tensor position it records all fields (`batch` is the
derived `arange(B)` and is left implicit here). -/
def KVCacheGenerate.init {B H C D : ℕ} {σ : Type}
    (cache_k cache_v : Tensor4 B H C D) (position : PosArg B) (sharding : σ) :
    Except PyError (KVCacheGenerate B H C D σ) :=
  match position with
  | PosArg.scalar _ => Except.error PyError.attributeError
  | PosArg.tensor p => Except.ok ⟨cache_k, cache_v, p, sharding⟩

/-- Model of `KVCacheGenerate.empty`: allocates zero-filled buffers of the given
shape (dtype chosen by `bf16_enable`), then calls the constructor passing
the plain int `0` as position (the local `pos = jnp.array([0])` is unused
in the source). -/
def KVCacheGenerate.empty (B H C D : ℕ) {σ : Type} (device : σ)
    (_bf16_enable : Bool) : Except PyError (KVCacheGenerate B H C D σ) :=
  KVCacheGenerate.init (zeroTensor4 B H C D) (zeroTensor4 B H C D)
    (PosArg.scalar 0) device

/-- Model of `KVCacheGenerate.update`: scatter of `squeeze(key, 2)` and
`squeeze(value, 2)` into column `pos[b]` of each batch row b, returning
the full buffers.  For in-bounds positions this writes exactly the cell
`(b, :, pos[b], :)`.  Modelled from the spec for out-of-range positions
only: the storage layer primitive (`jax ... .at[...].set`, not part of
this repository) "silently wraps via modular indexing", so the column
index is `pos[b] mod C`. -/
def KVCacheGenerate.update {B H C D : ℕ} {σ : Type}
    (c : KVCacheGenerate B H C D σ) (key value : Tensor4 B H 1 D) :
    KVCacheGenerate B H C D σ × (Tensor4 B H C D × Tensor4 B H C D) :=
  let k2 : Tensor4 B H C D := fun b h i d =>
    if (i.val : ℤ) = c.pos b % (C : ℤ) then key b h 0 d else c.cache_k b h i d
  let v2 : Tensor4 B H C D := fun b h i d =>
    if (i.val : ℤ) = c.pos b % (C : ℤ) then value b h 0 d else c.cache_v b h i d
  (⟨k2, v2, c.pos, c.sharding⟩, (k2, v2))

/-- Model of `KVCacheGenerate.state`: the two buffers as plain tensors. -/
def KVCacheGenerate.state {B H C D : ℕ} {σ : Type}
    (c : KVCacheGenerate B H C D σ) : Tensor4 B H C D × Tensor4 B H C D :=
  (c.cache_k, c.cache_v)

/-- Model of `KVCacheGenerate_flatten`: the pytree leaves (the two buffers) plus
(position, sharding) as auxiliary data. -/
def KVCacheGenerate_flatten {B H C D : ℕ} {σ : Type}
    (c : KVCacheGenerate B H C D σ) :
    (Tensor4 B H C D × Tensor4 B H C D) × ((Fin B → ℤ) × σ) :=
  ((c.cache_k, c.cache_v), (c.pos, c.sharding))

/-- Model of `KVCacheGenerate_unflatten`: reconstructs the cache through the
constructor with the tensor position and returns it. -/
def KVCacheGenerate_unflatten {B H C D : ℕ} {σ : Type}
    (auxdata : (Fin B → ℤ) × σ) (data : Tensor4 B H C D × Tensor4 B H C D) :
    Except PyError (KVCacheGenerate B H C D σ) :=
  KVCacheGenerate.init data.1 data.2 (PosArg.tensor auxdata.1) auxdata.2

/-- Model of `Int8KVCacheGenerate` state after successful construction.  The
constructor's `sharding` parameter is not stored by the source. -/
structure Int8KVCacheGenerate (B H C D : ℕ) where
  cache_k : ITensor4 B H C D
  cache_v : ITensor4 B H C D
  k_scaler : Tensor4 B 1 C 1
  v_scaler : Tensor4 B 1 C 1
  input_pos : Fin B → ℤ

/-- Model of `Int8KVCacheGenerate.__init__`: like the wide-dtype constructor it
evaluates `torch.arange(input_pos.shape[0])`, raising AttributeError when
`input_pos` is a plain int; the `sharding` argument is accepted and
dropped. -/
def Int8KVCacheGenerate.init {B H C D : ℕ} {τ : Type}
    (cache_k cache_v : ITensor4 B H C D)
    (cache_k_scaler cache_v_scaler : Tensor4 B 1 C 1)
    (input_pos : PosArg B) (_sharding : τ) :
    Except PyError (Int8KVCacheGenerate B H C D) :=
  match input_pos with
  | PosArg.scalar _ => Except.error PyError.attributeError
  | PosArg.tensor p =>
      Except.ok ⟨cache_k, cache_v, cache_k_scaler, cache_v_scaler, p⟩

/-- Model of `Int8KVCacheGenerate.empty`: allocates zero-filled int8 buffers and
all-ones bfloat16 scale buffers, then calls the constructor passing the
plain int `0` as `input_pos`. -/
def Int8KVCacheGenerate.empty (B H C D : ℕ) {σ : Type} (device : σ)
    (_bf16_enable : Bool) : Except PyError (Int8KVCacheGenerate B H C D) :=
  Int8KVCacheGenerate.init (zeroITensor4 B H C D) (zeroITensor4 B H C D)
    (onesScale4 B C) (onesScale4 B C) (PosArg.scalar 0) device

/-- Model of `Int8KVCacheGenerate.update`: quantizes the incoming step tensors and
scatters quantized values and scales into column `input_pos[b]` of row b.
Out-of-range positions wrap modularly exactly as in
`KVCacheGenerate.update`. -/
def Int8KVCacheGenerate.update {B H C D : ℕ} (c : Int8KVCacheGenerate B H C D)
    (xk xv : Tensor4 B H 1 D) :
    Int8KVCacheGenerate B H C D ×
      (ITensor4 B H C D × ITensor4 B H C D × Tensor4 B 1 C 1 × Tensor4 B 1 C 1) :=
  let kq := Int8KVCacheGenerate.quantize xk
  let vq := Int8KVCacheGenerate.quantize xv
  let k2 : ITensor4 B H C D := fun b h i d =>
    if (i.val : ℤ) = c.input_pos b % (C : ℤ) then kq.1 b h 0 d else c.cache_k b h i d
  let v2 : ITensor4 B H C D := fun b h i d =>
    if (i.val : ℤ) = c.input_pos b % (C : ℤ) then vq.1 b h 0 d else c.cache_v b h i d
  let ks2 : Tensor4 B 1 C 1 := fun b x i y =>
    if (i.val : ℤ) = c.input_pos b % (C : ℤ) then kq.2 b x 0 y else c.k_scaler b x i y
  let vs2 : Tensor4 B 1 C 1 := fun b x i y =>
    if (i.val : ℤ) = c.input_pos b % (C : ℤ) then vq.2 b x 0 y else c.v_scaler b x i y
  (⟨k2, v2, ks2, vs2, c.input_pos⟩, (k2, v2, ks2, vs2))

/-- A concrete step tensor of ones, shape (1, 1, 1, 1). -/
def onesStep : Tensor4 1 1 1 1 := fun _ _ _ _ => 1

/-- A concrete Generate cache of capacity 2 with all-zero buffers and an
out-of-range position vector [2]. -/
def cacheOOB : KVCacheGenerate 1 1 2 1 Unit :=
  ⟨zeroTensor4 1 1 2 1, zeroTensor4 1 1 2 1, fun _ => 2, ()⟩

/-- A concrete Generate cache of capacity 2 with all-zero buffers and the
in-bounds position vector [0]. -/
def cacheInBounds : KVCacheGenerate 1 1 2 1 Unit :=
  ⟨zeroTensor4 1 1 2 1, zeroTensor4 1 1 2 1, fun _ => 0, ()⟩

/-- A concrete Prefill cache holding remembered tensors. -/
def prefillHeld : KVCachePrefill 1 1 1 1 :=
  ⟨false, some onesStep, some onesStep⟩

/-- Python `str.split(".")` on a list of characters: splits at every dot,
keeping empty segments (the empty string yields one empty token). -/
def splitDots : List Char → List (List Char)
  | [] => [[]]
  | c :: cs =>
    match splitDots cs with
    | [] => [[]]
    | t :: ts => if c = '.' then [] :: t :: ts else (c :: t) :: ts

/-- Python `".".join(tokens)` on lists of characters. -/
def joinDots : List (List Char) → List Char
  | [] => []
  | [t] => t
  | t :: ts => t ++ '.' :: joinDots ts

/-- The ASCII whitespace characters stripped by Python `int()`. -/
def isPySpace (c : Char) : Bool :=
  c = ' ' || c = '\t' || c = '\n' || c = '\r' || c = '\x0B' || c = '\x0C'

/-- Strips leading and trailing whitespace. -/
def stripPySpace (t : List Char) : List Char :=
  ((t.dropWhile isPySpace).reverse.dropWhile isPySpace).reverse

/-- Drops one optional leading sign character. -/
def dropSign : List Char → List Char
  | '+' :: cs => cs
  | '-' :: cs => cs
  | cs => cs

/-- The tail of a Python decimal integer literal after its first digit:
digits with single underscores allowed only between digits. -/
def digitsTail : List Char → Bool
  | [] => true
  | ['_'] => false
  | '_' :: c :: cs => c.isDigit && digitsTail (c :: cs)
  | c :: cs => c.isDigit && digitsTail cs

/-- The source's `is_integer(t)`: whether Python `int(t)` succeeds, for
ASCII tokens: optional surrounding whitespace, optional sign, then a
nonempty digit run with single underscores between digits. -/
def is_integer (t : List Char) : Bool :=
  match dropSign (stripPySpace t) with
  | [] => false
  | c :: cs => c.isDigit && digitsTail cs

/-- One token of `process_sharding_name`: integer tokens become "*". -/
def starToken (t : List Char) : List Char :=
  if is_integer t then ['*'] else t

/-- Model of `process_sharding_name`: split the name on dots, replace every integer
token with "*", join back with dots. -/
def process_sharding_name (name : List Char) : List Char :=
  joinDots ((splitDots name).map starToken)

/-- A jax PartitionSpec, as the list of per-axis partition markers passed
to its constructor; the empty list is the fully replicated spec. -/
abbrev PartSpec := List (Option Char)

/-- Model of `JetEngineEnvironment.sharding_by_axis`: axis None or -1 gives the
replicated spec; otherwise the spec `[None]*(axis+1)` with the marker "x"
assigned at index `axis`.  For an axis below -1 the Python list assignment
`sharding[axis] = "x"` hits a too-short list and raises IndexError. -/
def sharding_by_axis (axis : Option ℤ) : Except PyError PartSpec :=
  match axis with
  | none => Except.ok []
  | some a =>
    if a = -1 then Except.ok []
    else if 0 ≤ a then
      Except.ok (List.replicate a.toNat none ++ [some 'x'])
    else Except.error PyError.indexError

/-- The sharding config: a mapping from tensor name to axis index (None
meaning replicated), as loaded from the yaml document. -/
abbrev ShardingConfig := List (List Char × Option ℤ)

/-- Model of `JetEngineEnvironment.sharding_by_name`: under batch sharding always
the axis-0 sharding, skipping all lookup; otherwise the name is looked up
literally, then under its wildcard normalization, and RuntimeError is
raised when neither entry exists. -/
def sharding_by_name (shard_on_batch : Bool) (cfg : ShardingConfig)
    (name : List Char) : Except PyError PartSpec :=
  if shard_on_batch then sharding_by_axis (some 0)
  else
    match cfg.lookup name with
    | some ax => sharding_by_axis ax
    | none =>
      match cfg.lookup (process_sharding_name name) with
      | some ax => sharding_by_axis ax
      | none => Except.error PyError.runtimeError

/-- The first step of the cache-shard-axis resolution in
`JetEngineEnvironment.__init__`: axis 0 under batch sharding, otherwise
`attention_kv_axis_names.index(kv_cache_shard_axis)`, a ValueError when
the name is absent. -/
def cacheShardAxisStep1 (shard_on_batch : Bool)
    (attention_kv_axis_names : List (List Char))
    (kv_cache_shard_axis : List Char) : Except PyError ℕ :=
  if shard_on_batch then Except.ok 0
  else
    match attention_kv_axis_names.findIdx? (fun t => t == kv_cache_shard_axis) with
    | some i => Except.ok i
    | none => Except.error PyError.valueError

/-- The full cache-shard-axis resolution of `JetEngineEnvironment.__init__`
including the extent-1 fallback `if cache_shape[axis] == 1: axis =
len(cache_shape) - 1` (Python tuple indexing raises IndexError when the
axis is out of range of the shape). -/
def resolveCacheShardAxis (shard_on_batch : Bool)
    (attention_kv_axis_names : List (List Char))
    (kv_cache_shard_axis : List Char) (cache_shape : List ℕ) :
    Except PyError ℕ :=
  match cacheShardAxisStep1 shard_on_batch attention_kv_axis_names
      kv_cache_shard_axis with
  | Except.error e => Except.error e
  | Except.ok ax =>
    match cache_shape.get? ax with
    | none => Except.error PyError.indexError
    | some n => Except.ok (if n = 1 then cache_shape.length - 1 else ax)

/-- A concrete empty sharding config. -/
def cfgEmpty : ShardingConfig := []

/-- A concrete tensor name with no entry in `cfgEmpty`. -/
def nameW : List Char := ['w', 'q']

/-- Concrete attention axis names for the fallback witness. -/
def axisNamesW : List (List Char) := [['b'], ['h'], ['s'], ['d']]

/-- The configured KV shard axis name for the fallback witness. -/
def kvShardW : List Char := ['h']

/-- A concrete cache shape whose axis 1 has extent 1. -/
def shapeW : List ℕ := [4, 1, 16, 2]

/-! ## Theorems -/

theorem le_foldl_max (l : List ℚ) (a : ℚ) : a ≤ l.foldl max a := by
  induction l generalizing a with
  | nil => exact le_refl a
  | cons x xs ih => exact le_trans (le_max_left a x) (ih (max a x))

theorem mem_le_foldl_max (l : List ℚ) (a x : ℚ) (hx : x ∈ l) :
    x ≤ l.foldl max a := by
  induction l generalizing a with
  | nil => cases hx
  | cons y ys ih =>
    rcases List.mem_cons.mp hx with h | h
    · subst h
      exact le_trans (le_max_right a x) (le_foldl_max ys (max a x))
    · exact ih (max a y) h

theorem foldl_max_le (l : List ℚ) (a c : ℚ) (ha : a ≤ c)
    (h : ∀ x ∈ l, x ≤ c) : l.foldl max a ≤ c := by
  induction l generalizing a with
  | nil => exact ha
  | cons y ys ih =>
    exact ih (max a y) (max_le ha (h y (List.mem_cons_self y ys)))
      (fun x hx => h x (List.mem_cons_of_mem y hx))

theorem Int8KVCacheGenerate.absAmax13_nonneg {B H S D : ℕ}
    (val : Tensor4 B H S D) (b : Fin B) (s : Fin S) :
    0 ≤ Int8KVCacheGenerate.absAmax13 val b s :=
  le_foldl_max _ 0

theorem Int8KVCacheGenerate.abs_le_absAmax13 {B H S D : ℕ}
    (val : Tensor4 B H S D) (b : Fin B) (h : Fin H) (s : Fin S) (d : Fin D) :
    |val b h s d| ≤ Int8KVCacheGenerate.absAmax13 val b s := by
  have hinner : |val b h s d| ≤
      ((List.finRange D).map (fun d => |val b h s d|)).foldl max 0 := by
    refine mem_le_foldl_max _ 0 _ ?_
    exact List.mem_map_of_mem _ (List.mem_finRange d)
  refine le_trans hinner (mem_le_foldl_max _ 0 _ ?_)
  exact List.mem_map_of_mem _ (List.mem_finRange h)

theorem Int8KVCacheGenerate.absAmax13_zero (B H S D : ℕ) (b : Fin B) (s : Fin S) :
    Int8KVCacheGenerate.absAmax13 (zeroTensor4 B H S D) b s = 0 := by
  refine le_antisymm ?_ (Int8KVCacheGenerate.absAmax13_nonneg _ b s)
  refine foldl_max_le _ 0 0 (le_refl 0) ?_
  intro x hx
  rcases List.mem_map.mp hx with ⟨h, _, rfl⟩
  refine foldl_max_le _ 0 0 (le_refl 0) ?_
  intro y hy
  rcases List.mem_map.mp hy with ⟨d, _, rfl⟩
  simp [zeroTensor4]

theorem ratFloorZ_eq_floor (q : ℚ) : ratFloorZ q = ⌊q⌋ :=
  Rat.floor_def.symm

theorem roundRat_eq_round (q : ℚ) : roundRat q = round q := by
  rw [roundRat, ratFloorZ_eq_floor, round_eq]

theorem ratTruncToInt_eq_floor {q : ℚ} (h : 0 ≤ q) : ratTruncToInt q = ⌊q⌋ := by
  rw [ratTruncToInt, Rat.floor_def]
  exact Int.tdiv_eq_ediv (Rat.num_nonneg.mpr h) (Int.ofNat_nonneg q.den)

theorem ratTruncToInt_eq_ceil {q : ℚ} (h : q ≤ 0) : ratTruncToInt q = ⌈q⌉ := by
  have h2 : 0 ≤ -q := neg_nonneg.mpr h
  have hneg : ratTruncToInt (-q) = ⌊-q⌋ := ratTruncToInt_eq_floor h2
  have hflip : ratTruncToInt (-q) = -ratTruncToInt q := by
    rw [ratTruncToInt, ratTruncToInt, Rat.neg_num, Rat.neg_den, Int.neg_tdiv]
  rw [Int.floor_neg] at hneg
  omega

theorem ratTruncToInt_le {q : ℚ} {n : ℤ} (h : q ≤ (n : ℚ)) (hn : 0 ≤ n) :
    ratTruncToInt q ≤ n := by
  by_cases hq : 0 ≤ q
  · rw [ratTruncToInt_eq_floor hq]
    calc ⌊q⌋ ≤ ⌊(n : ℚ)⌋ := Int.floor_mono h
    _ = n := Int.floor_intCast n
  · rw [ratTruncToInt_eq_ceil (le_of_not_le hq)]
    have hc : ⌈q⌉ ≤ (0 : ℤ) := Int.ceil_le.mpr (by simpa using le_of_not_le hq)
    exact le_trans hc hn

theorem le_ratTruncToInt {q : ℚ} {n : ℤ} (h : -(n : ℚ) ≤ q) (hn : 0 ≤ n) :
    -n ≤ ratTruncToInt q := by
  by_cases hq : 0 ≤ q
  · rw [ratTruncToInt_eq_floor hq]
    exact le_trans (neg_nonpos.mpr hn) (Int.floor_nonneg.mpr hq)
  · rw [ratTruncToInt_eq_ceil (le_of_not_le hq)]
    calc -n = ⌈(-(n : ℚ) : ℚ)⌉ := by
          rw [Int.ceil_neg, Int.floor_intCast]
    _ ≤ ⌈q⌉ := Int.ceil_mono h

/-- C1: for every 4-D tensor whose scale is nonzero, quantize returns the
scale amax(|val|, over axes 1 and 3, keepdim)/127 at shape (B,1,S,1), and
the quantized entries are val/scale truncated toward zero (the int8 cast),
which always lands inside [-127, 127] (so inside the int8 range).  This is
the claim amended: the source casts with truncation toward zero, it does
not round to nearest. -/
theorem quantize_scale_and_trunc {B H S D : ℕ} (val : Tensor4 B H S D)
    (b : Fin B) (h : Fin H) (s : Fin S) (d : Fin D)
    (hs : Int8KVCacheGenerate.absAmax13 val b s ≠ 0) :
    (Int8KVCacheGenerate.quantize val).2 b 0 s 0 =
      Int8KVCacheGenerate.absAmax13 val b s / 127 ∧
    (Int8KVCacheGenerate.quantize val).1 b h s d =
      ratTruncToInt (val b h s d / (Int8KVCacheGenerate.absAmax13 val b s / 127)) ∧
    -127 ≤ (Int8KVCacheGenerate.quantize val).1 b h s d ∧
    (Int8KVCacheGenerate.quantize val).1 b h s d ≤ 127 := by
  have hM0 : 0 ≤ Int8KVCacheGenerate.absAmax13 val b s :=
    Int8KVCacheGenerate.absAmax13_nonneg val b s
  have hMpos : 0 < Int8KVCacheGenerate.absAmax13 val b s :=
    lt_of_le_of_ne hM0 (Ne.symm hs)
  have hspos : 0 < Int8KVCacheGenerate.absAmax13 val b s / 127 := by positivity
  have habs : |val b h s d| ≤ Int8KVCacheGenerate.absAmax13 val b s :=
    Int8KVCacheGenerate.abs_le_absAmax13 val b h s d
  have hq : |val b h s d / (Int8KVCacheGenerate.absAmax13 val b s / 127)| ≤ 127 := by
    rw [abs_div, abs_of_pos hspos, div_le_iff₀ hspos]
    calc |val b h s d| ≤ Int8KVCacheGenerate.absAmax13 val b s := habs
    _ = 127 * (Int8KVCacheGenerate.absAmax13 val b s / 127) := by field_simp
  obtain ⟨h1, h2⟩ := abs_le.mp hq
  refine ⟨rfl, rfl, ?_, ?_⟩
  · show -127 ≤ ratTruncToInt
      (val b h s d / (Int8KVCacheGenerate.absAmax13 val b s / 127))
    have := le_ratTruncToInt (n := 127) (by exact_mod_cast h1) (by norm_num)
    exact this
  · show ratTruncToInt
      (val b h s d / (Int8KVCacheGenerate.absAmax13 val b s / 127)) ≤ 127
    exact ratTruncToInt_le (n := 127) (by exact_mod_cast h2) (by norm_num)

/-- C1 witness: the amended theorem applied to the concrete ones tensor. -/
theorem quantize_scale_and_trunc_witness :
    Int8KVCacheGenerate.absAmax13 valOnes 0 0 ≠ 0 ∧
    ((Int8KVCacheGenerate.quantize valOnes).2 0 0 0 0 =
       Int8KVCacheGenerate.absAmax13 valOnes 0 0 / 127 ∧
     (Int8KVCacheGenerate.quantize valOnes).1 0 0 0 0 =
       ratTruncToInt (valOnes 0 0 0 0 / (Int8KVCacheGenerate.absAmax13 valOnes 0 0 / 127)) ∧
     -127 ≤ (Int8KVCacheGenerate.quantize valOnes).1 0 0 0 0 ∧
     (Int8KVCacheGenerate.quantize valOnes).1 0 0 0 0 ≤ 127) :=
  ⟨by decide, quantize_scale_and_trunc valOnes 0 0 0 0 (by decide)⟩

/-- C1 counterexample: on the tensor (2, 1) the source quantizer produces
63 at the second entry (1/(2/127) = 63.5 truncates toward zero), while the
claimed round-then-truncate recipe produces 64, so the claim as stated is
false at this input. -/
theorem quantize_round_mismatch :
    (Int8KVCacheGenerate.quantize valHalfway).1 0 0 0 1 = 63 ∧
    (quantizeRoundSpec valHalfway).1 0 0 0 1 = 64 ∧
    (Int8KVCacheGenerate.quantize valHalfway).1 0 0 0 1 ≠
      (quantizeRoundSpec valHalfway).1 0 0 0 1 := by
  have hM : Int8KVCacheGenerate.absAmax13 valHalfway 0 0 = 2 := by decide
  have hval : valHalfway 0 0 0 1 = 1 := by decide
  have hdiv : valHalfway 0 0 0 1 /
      (Int8KVCacheGenerate.absAmax13 valHalfway 0 0 / 127) = 127 / 2 := by
    rw [hM, hval]
    norm_num
  have hA : (Int8KVCacheGenerate.quantize valHalfway).1 0 0 0 1 = 63 := by
    show ratTruncToInt (valHalfway 0 0 0 1 /
      (Int8KVCacheGenerate.absAmax13 valHalfway 0 0 / 127)) = 63
    rw [hdiv, ratTruncToInt_eq_floor (by norm_num)]
    norm_num
  have hB : (quantizeRoundSpec valHalfway).1 0 0 0 1 = 64 := by
    show max (-128) (min 127 (roundRat (valHalfway 0 0 0 1 /
      (Int8KVCacheGenerate.absAmax13 valHalfway 0 0 / 127)))) = 64
    rw [hdiv, roundRat, ratFloorZ_eq_floor]
    norm_num
  refine ⟨hA, hB, ?_⟩
  rw [hA, hB]
  decide

/-- C2: quantizing the all-zero tensor completes (the model is a total
function: no division error) and yields an all-zero quantized tensor and
a scale of exactly zero. -/
theorem quantize_zero_tensor (B H S D : ℕ) (b b2 : Fin B) (h : Fin H)
    (s s2 : Fin S) (d : Fin D) (x y : Fin 1) :
    (Int8KVCacheGenerate.quantize (zeroTensor4 B H S D)).1 b h s d = 0 ∧
    (Int8KVCacheGenerate.quantize (zeroTensor4 B H S D)).2 b2 x s2 y = 0 := by
  constructor
  · show ratTruncToInt ((zeroTensor4 B H S D) b h s d /
      Int8KVCacheGenerate.quantizeScale (zeroTensor4 B H S D) b 0 s 0) = 0
    simp [zeroTensor4, ratTruncToInt]
  · show Int8KVCacheGenerate.absAmax13 (zeroTensor4 B H S D) b2 s2 / 127 = 0
    rw [Int8KVCacheGenerate.absAmax13_zero]
    norm_num

/-- C3: for a Generate cache whose row-b position is the in-bounds index
p, update writes key[b,:,0,:] and value[b,:,0,:] exactly at column p of
row b, and every cell with a column other than p keeps its pre-update
value. -/
theorem generate_update_write_locality {B H C D : ℕ} {σ : Type}
    (c : KVCacheGenerate B H C D σ) (key value : Tensor4 B H 1 D)
    (b : Fin B) (h : Fin H) (i : Fin C) (d : Fin D) (p : Fin C)
    (hb : c.pos b = (p.val : ℤ)) (hne : i ≠ p) :
    ((c.update key value).1.cache_k b h i d = c.cache_k b h i d ∧
     (c.update key value).1.cache_v b h i d = c.cache_v b h i d) ∧
    ((c.update key value).1.cache_k b h p d = key b h 0 d ∧
     (c.update key value).1.cache_v b h p d = value b h 0 d) := by
  have hmod : c.pos b % (C : ℤ) = (p.val : ℤ) := by
    rw [hb]
    exact Int.emod_eq_of_lt (Int.ofNat_nonneg p.val) (by exact_mod_cast p.isLt)
  have hcond_ne : ¬((i.val : ℤ) = c.pos b % (C : ℤ)) := by
    rw [hmod]
    intro hcc
    exact hne (Fin.ext (by exact_mod_cast hcc))
  have hcond_eq : (p.val : ℤ) = c.pos b % (C : ℤ) := hmod.symm
  refine ⟨⟨?_, ?_⟩, ?_, ?_⟩
  · show (if (i.val : ℤ) = c.pos b % (C : ℤ) then key b h 0 d
      else c.cache_k b h i d) = c.cache_k b h i d
    exact if_neg hcond_ne
  · show (if (i.val : ℤ) = c.pos b % (C : ℤ) then value b h 0 d
      else c.cache_v b h i d) = c.cache_v b h i d
    exact if_neg hcond_ne
  · show (if (p.val : ℤ) = c.pos b % (C : ℤ) then key b h 0 d
      else c.cache_k b h p d) = key b h 0 d
    exact if_pos hcond_eq
  · show (if (p.val : ℤ) = c.pos b % (C : ℤ) then value b h 0 d
      else c.cache_v b h p d) = value b h 0 d
    exact if_pos hcond_eq

/-- C3 witness: the locality theorem applied to a concrete capacity-2
cache with position 0, inspecting column 1. -/
theorem generate_update_write_locality_witness :
    (cacheInBounds.pos 0 = ((0 : Fin 2).val : ℤ) ∧ (1 : Fin 2) ≠ (0 : Fin 2)) ∧
    (((cacheInBounds.update onesStep onesStep).1.cache_k 0 0 1 0 =
        cacheInBounds.cache_k 0 0 1 0 ∧
      (cacheInBounds.update onesStep onesStep).1.cache_v 0 0 1 0 =
        cacheInBounds.cache_v 0 0 1 0) ∧
     ((cacheInBounds.update onesStep onesStep).1.cache_k 0 0 0 0 =
        onesStep 0 0 0 0 ∧
      (cacheInBounds.update onesStep onesStep).1.cache_v 0 0 0 0 =
        onesStep 0 0 0 0)) :=
  ⟨⟨rfl, by decide⟩,
   generate_update_write_locality cacheInBounds onesStep onesStep 0 0 1 0 0
     rfl (by decide)⟩

/-- C4: both Generate-family factories raise AttributeError for every
shape, device and precision flag, because they pass the plain int 0 as
the position and the constructor reads `position.shape[0]`; no cache
instance is ever returned, contradicting the claim that the factories
succeed. -/
theorem generate_empty_raises (B H C D : ℕ) (σ : Type) (device : σ)
    (bf16 : Bool) :
    KVCacheGenerate.empty B H C D device bf16 =
      Except.error PyError.attributeError ∧
    Int8KVCacheGenerate.empty B H C D device bf16 =
      Except.error PyError.attributeError :=
  ⟨rfl, rfl⟩

/-- C5: flattening a concrete Prefill cache and feeding the parts back
through `KVCachePrefill_unflatten` yields None rather than a cache equal
to the original, because the Python unflatten function never returns the
cache it builds. -/
theorem prefill_unflatten_returns_none :
    KVCachePrefill_unflatten (KVCachePrefill_flatten prefillHeld).2
      (KVCachePrefill_flatten prefillHeld).1 = none :=
  rfl

/-- C6: updating a concrete capacity-2 Generate cache with the
out-of-range position vector [2] raises nothing: the call completes and
the write lands at column 2 mod 2 = 0, leaving column 1 untouched — the
position is silently wrapped rather than surfaced as a bounds
violation. -/
theorem oob_update_wraps_silently :
    ((cacheOOB.update onesStep onesStep).1.cache_k 0 0 0 0 = 1 ∧
     (cacheOOB.update onesStep onesStep).1.cache_v 0 0 0 0 = 1) ∧
    ((cacheOOB.update onesStep onesStep).1.cache_k 0 0 1 0 = 0 ∧
     (cacheOOB.update onesStep onesStep).1.cache_v 0 0 1 0 = 0) := by
  decide

/-- C9: after two successive Prefill updates, the state accessor returns
exactly the tensors of the second update — the first is fully
replaced. -/
theorem prefill_update_overwrite {B H S D : ℕ} (c : KVCachePrefill B H S D)
    (k1 v1 k2 v2 : Tensor4 B H S D) :
    ((c.update k1 v1).1.update k2 v2).1.state = (some k2, some v2) :=
  rfl

/-- C7: sharding_by_name returns the axis-0 sharding whenever batch
sharding is active, regardless of the config; otherwise it resolves the
name through the literal entry, then through the wildcard-normalized
entry, and raises a fatal RuntimeError when neither rule exists. -/
theorem sharding_by_name_resolution (cfg : ShardingConfig) (name : List Char) :
    sharding_by_name true cfg name = sharding_by_axis (some 0) ∧
    (∀ ax, cfg.lookup name = some ax →
      sharding_by_name false cfg name = sharding_by_axis ax) ∧
    (cfg.lookup name = none → ∀ ax,
      cfg.lookup (process_sharding_name name) = some ax →
      sharding_by_name false cfg name = sharding_by_axis ax) ∧
    (cfg.lookup name = none →
      cfg.lookup (process_sharding_name name) = none →
      sharding_by_name false cfg name = Except.error PyError.runtimeError) := by
  refine ⟨rfl, ?_, ?_, ?_⟩
  · intro ax hlit
    simp [sharding_by_name, hlit]
  · intro hlit ax hwild
    simp [sharding_by_name, hlit, hwild]
  · intro hlit hwild
    simp [sharding_by_name, hlit, hwild]

/-- C7 witness: the resolution theorem applied to the empty config and a
concrete name, hitting the fatal-error branch. -/
theorem sharding_by_name_resolution_witness :
    (cfgEmpty.lookup nameW = none ∧
     cfgEmpty.lookup (process_sharding_name nameW) = none) ∧
    sharding_by_name false cfgEmpty nameW = Except.error PyError.runtimeError :=
  ⟨⟨rfl, rfl⟩, (sharding_by_name_resolution cfgEmpty nameW).2.2.2 rfl rfl⟩

/-- C8: whenever the first resolution step (axis 0 under batch sharding,
else the index of the configured KV-shard axis name) yields an axis whose
extent in the cache shape is 1, the resolved cache sharding axis is the
last axis of the shape. -/
theorem cache_shard_axis_fallback (sob : Bool) (axisNames : List (List Char))
    (kvName : List Char) (shape : List ℕ) (ax : ℕ)
    (h1 : cacheShardAxisStep1 sob axisNames kvName = Except.ok ax)
    (h2 : shape.get? ax = some 1) :
    resolveCacheShardAxis sob axisNames kvName shape =
      Except.ok (shape.length - 1) := by
  have h2' : shape[ax]? = some 1 := by
    rw [← List.get?_eq_getElem?]
    exact h2
  simp [resolveCacheShardAxis, h1, h2']

/-- C8 witness: the fallback theorem at a concrete configuration whose
nominally configured shard axis (index 1) has extent 1 in the shape
[4, 1, 16, 2], resolving to the last axis 3. -/
theorem cache_shard_axis_fallback_witness :
    (cacheShardAxisStep1 false axisNamesW kvShardW = Except.ok 1 ∧
     shapeW.get? 1 = some 1) ∧
    resolveCacheShardAxis false axisNamesW kvShardW shapeW = Except.ok 3 :=
  ⟨⟨rfl, rfl⟩, cache_shard_axis_fallback false axisNamesW kvShardW shapeW 1 rfl rfl⟩

theorem splitDots_ne_nil (l : List Char) : splitDots l ≠ [] := by
  cases l with
  | nil => simp [splitDots]
  | cons c cs =>
    cases h : splitDots cs with
    | nil => simp [splitDots, h]
    | cons t ts =>
      by_cases hc : c = '.'
      · simp [splitDots, h, hc]
      · simp [splitDots, h, hc]

theorem splitDots_nodot (t : List Char) (ht : ∀ c ∈ t, c ≠ '.') :
    splitDots t = [t] := by
  induction t with
  | nil => simp [splitDots]
  | cons c cs ih =>
    have hc : c ≠ '.' := ht c (List.mem_cons_self c cs)
    have ihh : splitDots cs = [cs] :=
      ih (fun x hx => ht x (List.mem_cons_of_mem c hx))
    simp [splitDots, ihh, hc]

theorem splitDots_append_dot (t l : List Char) (ht : ∀ c ∈ t, c ≠ '.') :
    splitDots (t ++ '.' :: l) = t :: splitDots l := by
  induction t with
  | nil =>
    cases h : splitDots l with
    | nil => exact absurd h (splitDots_ne_nil l)
    | cons u us => simp [splitDots, h]
  | cons c cs ih =>
    have hc : c ≠ '.' := ht c (List.mem_cons_self c cs)
    have ihh := ih (fun x hx => ht x (List.mem_cons_of_mem c hx))
    simp [splitDots, ihh, hc]

theorem splitDots_tokens_nodot (l : List Char) :
    ∀ t ∈ splitDots l, ∀ c ∈ t, c ≠ '.' := by
  induction l with
  | nil =>
    intro t htl c hct
    simp [splitDots] at htl
    subst htl
    exact absurd hct (List.not_mem_nil c)
  | cons a as ih =>
    intro t htl c hct
    cases h : splitDots as with
    | nil => exact absurd h (splitDots_ne_nil as)
    | cons u us =>
      by_cases ha : a = '.'
      · have heq : splitDots (a :: as) = [] :: u :: us := by
          simp [splitDots, h, ha]
        rw [heq] at htl
        rcases List.mem_cons.mp htl with rfl | htl2
        · exact absurd hct (List.not_mem_nil c)
        · exact ih t (by rw [h]; exact htl2) c hct
      · have heq : splitDots (a :: as) = (a :: u) :: us := by
          simp [splitDots, h, ha]
        rw [heq] at htl
        rcases List.mem_cons.mp htl with rfl | htl2
        · rcases List.mem_cons.mp hct with rfl | hcu
          · exact ha
          · exact ih u (by rw [h]; exact List.mem_cons_self u us) c hcu
        · exact ih t (by rw [h]; exact List.mem_cons_of_mem u htl2) c hct

theorem joinDots_cons_cons (t u : List Char) (us : List (List Char)) :
    joinDots (t :: u :: us) = t ++ '.' :: joinDots (u :: us) :=
  rfl

theorem splitDots_joinDots (ts : List (List Char)) (hne : ts ≠ [])
    (h : ∀ t ∈ ts, ∀ c ∈ t, c ≠ '.') : splitDots (joinDots ts) = ts := by
  induction ts with
  | nil => exact absurd rfl hne
  | cons t rest ih =>
    cases rest with
    | nil =>
      show splitDots (joinDots [t]) = [t]
      have hj : joinDots [t] = t := rfl
      rw [hj]
      exact splitDots_nodot t (h t (List.mem_cons_self t []))
    | cons u us =>
      rw [joinDots_cons_cons]
      rw [splitDots_append_dot t _ (h t (List.mem_cons_self t (u :: us)))]
      rw [ih (by simp) (fun x hx c hc => h x (List.mem_cons_of_mem t hx) c hc)]

theorem starToken_nodot (t : List Char) (ht : ∀ c ∈ t, c ≠ '.') :
    ∀ c ∈ starToken t, c ≠ '.' := by
  intro c hc
  by_cases hi : is_integer t
  · rw [starToken, if_pos hi] at hc
    have hcs : c = '*' := List.mem_singleton.mp hc
    subst hcs
    decide
  · rw [starToken, if_neg hi] at hc
    exact ht c hc

theorem starToken_idem (t : List Char) :
    starToken (starToken t) = starToken t := by
  by_cases hi : is_integer t
  · have h1 : starToken t = ['*'] := by rw [starToken, if_pos hi]
    rw [h1]
    rfl
  · have h1 : starToken t = t := by rw [starToken, if_neg hi]
    rw [h1]
    exact h1

/-- C10: process_sharding_name is idempotent — the tokens of an already
normalized name are either the original non-integer tokens or "*", which
is not an integer, so a second normalization changes nothing. -/
theorem process_sharding_name_idempotent (name : List Char) :
    process_sharding_name (process_sharding_name name) =
      process_sharding_name name := by
  have htoks : ∀ t ∈ splitDots name, ∀ c ∈ t, c ≠ '.' :=
    splitDots_tokens_nodot name
  have hmapped_ne : (splitDots name).map starToken ≠ [] := by
    intro h0
    exact splitDots_ne_nil name (List.map_eq_nil_iff.mp h0)
  have hmapped_nodot : ∀ t ∈ (splitDots name).map starToken, ∀ c ∈ t, c ≠ '.' := by
    intro t ht
    rcases List.mem_map.mp ht with ⟨u, hu, rfl⟩
    exact starToken_nodot u (htoks u hu)
  unfold process_sharding_name
  rw [splitDots_joinDots _ hmapped_ne hmapped_nodot, List.map_map]
  exact congrArg joinDots (List.map_congr_left (fun t _ => starToken_idem t))
